import Mathlib

/-!
Verification of the Electric repository: an educational web page with three
calculator panels (Ohms Law, Kirchhoff current law, Kirchhoff voltage law)
and several navigation groups. The two source files, `src/lab.js` and
`src/unnamed/part_000`, define the same pure arithmetic functions
(`calculateOhmsLaw`, `calculateKCL`, `calculateKVL`, `isKVLBalanced`) and a
family of click handlers that move an `active` CSS class among sibling
elements. Numbers are embedded as rationals; the DOM fragments a handler
touches are embedded as lists of elements carrying an id, an optional data
attribute and an `active` flag; a handler that can dereference a missing
element is embedded in `Except String`, with `Except.error` exactly where
the JavaScript would throw a TypeError on `null`.
-/

namespace Electric

/-- Embedding of `calculateOhmsLaw` (src/lab.js lines 74-81 and
src/unnamed/part_000 lines 88-91): `if (resistance === 0) return 0;
return voltage / resistance;`. -/
def calculateOhmsLaw (voltage resistance : ℚ) : ℚ :=
  if resistance = 0 then 0 else voltage / resistance

/-- Embedding of `calculateKCL` (src/lab.js lines 150-153 and
src/unnamed/part_000 lines 136-138): `return i1 + i2;`. -/
def calculateKCL (i1 i2 : ℚ) : ℚ := i1 + i2

/-- Embedding of `calculateKVL` (src/lab.js lines 221-224 and
src/unnamed/part_000 lines 182-184): `return v1 + v2;`. -/
def calculateKVL (v1 v2 : ℚ) : ℚ := v1 + v2

/-- Embedding of `isKVLBalanced` (src/lab.js lines 232-236 and
src/unnamed/part_000 lines 186-189): tolerance 0.01,
`return Math.abs(sourceVoltage - voltageSum) < tolerance;`. -/
def isKVLBalanced (sourceVoltage voltageSum : ℚ) : Bool :=
  let tolerance : ℚ := 1 / 100
  decide (|sourceVoltage - voltageSum| < tolerance)

/-- Embedding of a division whose error branch records the JavaScript-level
hazard: dividing by zero. Used to express that `calculateOhmsLaw` only
divides on the branch where the resistance is nonzero. -/
def safeDiv (a b : ℚ) : Except String ℚ :=
  if b = 0 then Except.error "division by zero" else Except.ok (a / b)

/-- Embedding of `calculateOhmsLaw` with the division made fallible: the
source tests `resistance === 0` first and divides otherwise. -/
def calculateOhmsLawE (voltage resistance : ℚ) : Except String ℚ :=
  if resistance = 0 then Except.ok 0 else safeDiv voltage resistance

/-- Embedding of a DOM element as a handler sees it: an id, an optional
data attribute (`data-section`, `data-subsection` or `data-element`
depending on the group) and whether its class list holds `active`. -/
structure Elem where
  id : String
  attr : Option String
  active : Bool
deriving DecidableEq, Repr

/-- Embedding of `classList.remove` on the `active` class. -/
def clearActive (e : Elem) : Elem := { e with active := false }

/-- Embedding of `classList.add` on the `active` class. -/
def setActive (e : Elem) : Elem := { e with active := true }

/-- Embedding of `document.getElementById` restricted to the elements a
handler can target: the first element of the list carrying the id. -/
def getElementById (doc : List Elem) (targetId : String) : Option Elem :=
  doc.find? (fun e => e.id == targetId)

/-- Mark the first element carrying the id active, leaving the rest
untouched: the combined effect of `getElementById` followed by
`classList.add` on the found element. -/
def setFirstById : List Elem → String → List Elem
  | [], _ => []
  | e :: rest, targetId =>
    if e.id == targetId then setActive e :: rest
    else e :: setFirstById rest targetId

/-- Number of elements of the list carrying the `active` class. -/
def countActive (l : List Elem) : ℕ := (l.filter (fun e => e.active)).length

/-- Embedding of the click handler installed by `initNavigation`
(src/lab.js lines 37-61) on the button at position `i`: read
`data-section`, return early when the attribute or the target section is
missing (console.error in the source), otherwise clear `active` from every
button and section and set it on the clicked button and its target. -/
def clickNav (navButtons contentSections : List Elem) (i : ℕ) :
    Except String (List Elem × List Elem) :=
  match navButtons.get? i with
  | none => Except.ok (navButtons, contentSections)
  | some button =>
    match button.attr with
    | none => Except.ok (navButtons, contentSections)
    | some targetSection =>
      match getElementById contentSections targetSection with
      | none => Except.ok (navButtons, contentSections)
      | some _ =>
        Except.ok ((navButtons.map clearActive).set i (setActive button),
          setFirstById (contentSections.map clearActive) targetSection)

/-- Embedding of the click handler installed by `initMainNavigation`
(src/unnamed/part_000 lines 10-28) on the link at position `i`: no guard
at all; clear `active` everywhere, set it on the clicked link, then call
`classList.add` on `document.getElementById(targetSection)` directly,
which throws a TypeError when the target is missing. A missing
`data-section` attribute makes `getAttribute` return `null`, which
`getElementById` receives as the id string `"null"`. -/
def clickMainNav (navLinks contentSections : List Elem) (i : ℕ) :
    Except String (List Elem × List Elem) :=
  match navLinks.get? i with
  | none => Except.ok (navLinks, contentSections)
  | some link =>
    let targetSection := match link.attr with
      | some a => a
      | none => "null"
    let links2 := (navLinks.map clearActive).set i (setActive link)
    let sections2 := contentSections.map clearActive
    match getElementById sections2 targetSection with
    | some _ => Except.ok (links2, setFirstById sections2 targetSection)
    | none =>
      Except.error ("TypeError: cannot read classList of null, target "
        ++ targetSection)

/-- Embedding of the click handler installed by `initDataNavigation`
(src/unnamed/part_000 lines 34-53) on the button at position `i`: clear
`active` from every button and subsection first, set it on the clicked
button, then look up the id `data-subsection + "-subsection"` and set the
target active only when it exists; a missing target is silently skipped
after the clearing already happened. -/
def clickDataNav (dataNavButtons dataSubsections : List Elem) (i : ℕ) :
    Except String (List Elem × List Elem) :=
  match dataNavButtons.get? i with
  | none => Except.ok (dataNavButtons, dataSubsections)
  | some button =>
    let targetId := (match button.attr with
      | some a => a
      | none => "null") ++ "-subsection"
    let buttons2 := (dataNavButtons.map clearActive).set i (setActive button)
    let subs2 := dataSubsections.map clearActive
    match getElementById subs2 targetId with
    | some _ => Except.ok (buttons2, setFirstById subs2 targetId)
    | none => Except.ok (buttons2, subs2)

/-- Embedding of the click handler installed by `initElementTabs`
(src/lab.js lines 335-371 and src/unnamed/part_000 lines 60-82, identical
in behaviour) on the tab at position `i`: read `data-element`, return
early when the attribute or the panel with id `data-element + "-panel"` is
missing, otherwise clear `active` everywhere and set it on the clicked tab
and its panel. -/
def clickElementTabs (elementTabs elementPanels : List Elem) (i : ℕ) :
    Except String (List Elem × List Elem) :=
  match elementTabs.get? i with
  | none => Except.ok (elementTabs, elementPanels)
  | some tab =>
    match tab.attr with
    | none => Except.ok (elementTabs, elementPanels)
    | some targetElement =>
      match getElementById elementPanels (targetElement ++ "-panel") with
      | none => Except.ok (elementTabs, elementPanels)
      | some _ =>
        Except.ok ((elementTabs.map clearActive).set i (setActive tab),
          setFirstById (elementPanels.map clearActive)
            (targetElement ++ "-panel"))

/-- Helper: whether an exceptional computation produced a value. -/
def isOk {α : Type} : Except String α → Bool
  | Except.ok _ => true
  | Except.error _ => false

/-!
The remaining definitions re-embed each operation that looks up DOM
elements with one more observable: whether the operation called
`console.warn` or `console.error` (a `Bool`; the message text is not
tracked). The click-handler variants return the resulting element lists
together with that flag; the initialisation guards return whether the
function proceeded past its existence checks (`false` means it returned
early) together with that flag.
-/

/-- Embedding of the `initNavigation` click handler (src/lab.js lines
37-61) with the console observable: a missing `data-section` attribute or
a missing target section is a `console.error` followed by a return, state
untouched. -/
def clickNavC (navButtons contentSections : List Elem) (i : ℕ) :
    Except String ((List Elem × List Elem) × Bool) :=
  match navButtons.get? i with
  | none => Except.ok ((navButtons, contentSections), false)
  | some button =>
    match button.attr with
    | none => Except.ok ((navButtons, contentSections), true)
    | some targetSection =>
      match getElementById contentSections targetSection with
      | none => Except.ok ((navButtons, contentSections), true)
      | some _ =>
        Except.ok (((navButtons.map clearActive).set i (setActive button),
          setFirstById (contentSections.map clearActive) targetSection),
          false)

/-- Embedding of the `initDataNavigation` click handler (src/unnamed/
part_000 lines 34-53) with the console observable: the handler never
logs; a missing target is silently skipped after the clearing and the
re-marking of the clicked button already happened. -/
def clickDataNavC (dataNavButtons dataSubsections : List Elem) (i : ℕ) :
    Except String ((List Elem × List Elem) × Bool) :=
  match dataNavButtons.get? i with
  | none => Except.ok ((dataNavButtons, dataSubsections), false)
  | some button =>
    let targetId := (match button.attr with
      | some a => a
      | none => "null") ++ "-subsection"
    let buttons2 := (dataNavButtons.map clearActive).set i (setActive button)
    let subs2 := dataSubsections.map clearActive
    match getElementById subs2 targetId with
    | some _ => Except.ok ((buttons2, setFirstById subs2 targetId), false)
    | none => Except.ok ((buttons2, subs2), false)

/-- Embedding of the `initElementTabs` click handler of src/lab.js (lines
346-370) with the console observable: a missing `data-element` attribute
or a missing target panel is a `console.error` followed by a return,
state untouched. -/
def clickElementTabsLabC (elementTabs elementPanels : List Elem) (i : ℕ) :
    Except String ((List Elem × List Elem) × Bool) :=
  match elementTabs.get? i with
  | none => Except.ok ((elementTabs, elementPanels), false)
  | some tab =>
    match tab.attr with
    | none => Except.ok ((elementTabs, elementPanels), true)
    | some targetElement =>
      match getElementById elementPanels (targetElement ++ "-panel") with
      | none => Except.ok ((elementTabs, elementPanels), true)
      | some _ =>
        Except.ok (((elementTabs.map clearActive).set i (setActive tab),
          setFirstById (elementPanels.map clearActive)
            (targetElement ++ "-panel")), false)

/-- Embedding of the `initElementTabs` click handler of src/unnamed/
part_000 (lines 64-81) with the console observable: the same guards as
the lab.js version, but both missing-element paths are bare `return`
statements with no console call. -/
def clickElementTabsPartC (elementTabs elementPanels : List Elem) (i : ℕ) :
    Except String ((List Elem × List Elem) × Bool) :=
  match elementTabs.get? i with
  | none => Except.ok ((elementTabs, elementPanels), false)
  | some tab =>
    match tab.attr with
    | none => Except.ok ((elementTabs, elementPanels), false)
    | some targetElement =>
      match getElementById elementPanels (targetElement ++ "-panel") with
      | none => Except.ok ((elementTabs, elementPanels), false)
      | some _ =>
        Except.ok (((elementTabs.map clearActive).set i (setActive tab),
          setFirstById (elementPanels.map clearActive)
            (targetElement ++ "-panel")), false)

/-- Embedding of the existence guards of `initNavigation` (src/lab.js
lines 26-34): an empty button list, then an empty section list, each a
`console.error` followed by a return. -/
def initNavigationLab (navButtons contentSections : List Elem) :
    Bool × Bool :=
  if navButtons.length = 0 then (false, true)
  else if contentSections.length = 0 then (false, true)
  else (true, false)

/-- Embedding of the existence guard of `initElementTabs` (src/lab.js
lines 341-343): empty tabs or empty panels is a bare return with no
console call. -/
def initElementTabsLab (elementTabs elementPanels : List Elem) :
    Bool × Bool :=
  if elementTabs.length = 0 ∨ elementPanels.length = 0 then (false, false)
  else (true, false)

/-- Embedding of the existence guard of `initOhmsLaw` (src/lab.js lines
96-100): `required` lists the five `getElementById` results in source
order; any missing element is a `console.warn` followed by a return. -/
def initOhmsLawLab (required : List (Option Elem)) : Bool × Bool :=
  if required.any Option.isNone then (false, true) else (true, false)

/-- Embedding of the existence guard of `initKCL` (src/lab.js lines
167-171): any of the five elements missing is a `console.warn` followed
by a return. -/
def initKCLLab (required : List (Option Elem)) : Bool × Bool :=
  if required.any Option.isNone then (false, true) else (true, false)

/-- Embedding of the existence guard of `initKVL` (src/lab.js lines
253-259): any of the eight elements missing is a `console.warn` followed
by a return. -/
def initKVLLab (required : List (Option Elem)) : Bool × Bool :=
  if required.any Option.isNone then (false, true) else (true, false)

/-- Embedding of the existence guard of `initOhmsLaw` of src/unnamed/
part_000 (lines 100-103): any of the five elements missing is a bare
return with no console call. -/
def initOhmsLawPart (required : List (Option Elem)) : Bool × Bool :=
  if required.any Option.isNone then (false, false) else (true, false)

/-- Embedding of the existence guard of `initKCL` of src/unnamed/part_000
(lines 147-149): a bare return with no console call. -/
def initKCLPart (required : List (Option Elem)) : Bool × Bool :=
  if required.any Option.isNone then (false, false) else (true, false)

/-- Embedding of the existence guard of `initKVL` of src/unnamed/part_000
(lines 201-205): a bare return with no console call. -/
def initKVLPart (required : List (Option Elem)) : Bool × Bool :=
  if required.any Option.isNone then (false, false) else (true, false)

/-- Formatting helper on naturals: render `n` hundredths as a decimal
string with two fractional digits, with an optional minus sign. -/
def fmt2 (neg : Bool) (n : ℕ) : String :=
  let sign := if neg ∧ n ≠ 0 then "-" else ""
  let frac := n % 100
  let fracStr := if frac < 10 then "0" ++ toString frac else toString frac
  sign ++ toString (n / 100) ++ "." ++ fracStr

/-- Embedding of the JavaScript `Number.prototype.toFixed(2)` on an exact
rational: round the magnitude to a whole number of hundredths and render
it with two fractional digits. Ties round upward in magnitude, matching
`toFixed` on the values this page produces. -/
def toFixed2 (q : ℚ) : String :=
  fmt2 (decide (q < 0)) (round (|q| * 100)).toNat

/-- Result record of the display side effects of `validateKVL`: the text
written to the voltage-sum display, the text written to the validation
display, and the colour applied to the validation display. -/
structure KVLDisplay where
  sumText : String
  validationText : String
  color : String

/-- Embedding of the inner `validateKVL` (src/lab.js lines 291-309;
src/unnamed/part_000 lines 225-241 differs only in the literal message
text): read the three sliders, compute the sum with `calculateKVL`, write
the sum with `toFixed(2)`, then branch on `isKVLBalanced` to write either
a balanced message or the absolute difference with `toFixed(2)`. -/
def validateKVL (sourceVoltage v1 v2 : ℚ) : KVLDisplay :=
  let voltageSum := calculateKVL v1 v2
  let sumText := toFixed2 voltageSum ++ " V"
  if isKVLBalanced sourceVoltage voltageSum then
    { sumText := sumText
      validationText := "✓ Equation is balanced"
      color := "#4ade80" }
  else
    let difference := |sourceVoltage - voltageSum|
    { sumText := sumText
      validationText := "⚠ Difference: " ++ toFixed2 difference ++ " V"
      color := "#fbbf24" }

lemma mem_map_clearActive {l : List Elem} : ∀ e ∈ l.map clearActive, e.active = false := by
  intro e he
  rcases List.mem_map.mp he with ⟨x, _, rfl⟩
  rfl

lemma countActive_cons (a : Elem) (l : List Elem) :
    countActive (a :: l) = (if a.active = true then 1 else 0) + countActive l := by
  by_cases ha : a.active = true <;>
    simp [countActive, List.filter_cons, ha, Nat.add_comm]

lemma getElementById_cons (a : Elem) (rest : List Elem) (t : String) :
    getElementById (a :: rest) t =
      if a.id == t then some a else getElementById rest t := by
  by_cases hid : (a.id == t) = true
  · rw [if_pos hid, getElementById]
    exact List.find?_cons_of_pos _ hid
  · rw [if_neg hid, getElementById, getElementById]
    exact List.find?_cons_of_neg _ hid

lemma countActive_eq_zero {l : List Elem} (h : ∀ e ∈ l, e.active = false) :
    countActive l = 0 := by
  induction l with
  | nil => rfl
  | cons a rest ih =>
    have ha : a.active = false := h a (List.mem_cons_self a rest)
    have hr := ih (fun e he => h e (List.mem_cons_of_mem a he))
    simp [countActive_cons, ha, hr]

lemma countActive_set (e : Elem) (he : e.active = true) :
    ∀ (l : List Elem) (i : ℕ), (∀ x ∈ l, x.active = false) → i < l.length →
    countActive (l.set i e) = 1 := by
  intro l
  induction l with
  | nil => intro i _ hi; simp at hi
  | cons a rest ih =>
    intro i h hi
    cases i with
    | zero =>
      have hrest := countActive_eq_zero (fun x hx => h x (List.mem_cons_of_mem a hx))
      simp [List.set_cons_zero, countActive_cons, he, hrest]
    | succ n =>
      have ha : a.active = false := h a (List.mem_cons_self a rest)
      have hn : n < rest.length := by simpa using hi
      have hr := ih n (fun x hx => h x (List.mem_cons_of_mem a hx)) hn
      simp [List.set_cons_succ, countActive_cons, ha, hr]

lemma get?_set_self (e : Elem) :
    ∀ (l : List Elem) (i : ℕ), i < l.length → (l.set i e).get? i = some e := by
  intro l
  induction l with
  | nil => intro i hi; simp at hi
  | cons a rest ih =>
    intro i hi
    cases i with
    | zero => rfl
    | succ n =>
      rw [List.set_cons_succ, List.get?_cons_succ]
      exact ih n (by simpa using hi)

lemma countActive_setFirstById :
    ∀ (l : List Elem) (t : String), (∀ x ∈ l, x.active = false) →
    (getElementById l t).isSome = true → countActive (setFirstById l t) = 1 := by
  intro l
  induction l with
  | nil => intro t _ hm; simp [getElementById] at hm
  | cons a rest ih =>
    intro t h hm
    by_cases hid : (a.id == t) = true
    · have hrest := countActive_eq_zero (fun x hx => h x (List.mem_cons_of_mem a hx))
      simp [setFirstById, hid, countActive_cons, setActive, hrest]
    · have hm2 : (getElementById rest t).isSome = true := by
        rwa [getElementById_cons, if_neg hid] at hm
      have ha : a.active = false := h a (List.mem_cons_self a rest)
      have hr := ih t (fun x hx => h x (List.mem_cons_of_mem a hx)) hm2
      simp [setFirstById, hid, countActive_cons, ha, hr]

lemma setFirstById_active_id :
    ∀ (l : List Elem) (t : String), (∀ x ∈ l, x.active = false) →
    ∀ x ∈ setFirstById l t, x.active = true → x.id = t := by
  intro l
  induction l with
  | nil => intro t _ x hx; simp [setFirstById] at hx
  | cons a rest ih =>
    intro t h x hx hxa
    by_cases hid : (a.id == t) = true
    · rw [show setFirstById (a :: rest) t = setActive a :: rest by
        simp [setFirstById, hid]] at hx
      rcases List.mem_cons.mp hx with rfl | hxr
      · exact eq_of_beq hid
      · exact absurd hxa (by simp [h x (List.mem_cons_of_mem a hxr)])
    · rw [show setFirstById (a :: rest) t = a :: setFirstById rest t by
        simp [setFirstById, hid]] at hx
      rcases List.mem_cons.mp hx with rfl | hxr
      · exact absurd hxa (by simp [h x (List.mem_cons_self x rest)])
      · exact ih t (fun y hy => h y (List.mem_cons_of_mem a hy)) x hxr hxa

lemma getElementById_map_clearActive :
    ∀ (l : List Elem) (t : String),
    getElementById (l.map clearActive) t = (getElementById l t).map clearActive := by
  intro l
  induction l with
  | nil => intro t; rfl
  | cons a rest ih =>
    intro t
    rw [List.map_cons, getElementById_cons, getElementById_cons]
    by_cases hid : (a.id == t) = true
    · have hid2 : ((clearActive a).id == t) = true := hid
      rw [if_pos hid2, if_pos hid]
      rfl
    · have hid2 : ¬ ((clearActive a).id == t) = true := hid
      rw [if_neg hid2, if_neg hid]
      exact ih t

lemma toFixed2_eval (q : ℚ) (b : Bool) (n : ℤ)
    (h1 : decide (q < 0) = b) (h2 : round (|q| * 100) = n) :
    toFixed2 q = fmt2 b n.toNat := by
  rw [toFixed2, h1, h2]

/-- C1: for all rational source voltage `S` and drop sum `D`,
`isKVLBalanced S D` returns `true` exactly when `|S - D| < 0.01`; at the
boundary, `isKVLBalanced 10 10.009 = true` and
`isKVLBalanced 10 10.02 = false`. -/
theorem isKVLBalanced_iff_tolerance :
    (∀ S D : ℚ, isKVLBalanced S D = true ↔ |S - D| < 1 / 100) ∧
    isKVLBalanced 10 10.009 = true ∧ isKVLBalanced 10 10.02 = false := by
  refine ⟨fun S D => by simp [isKVLBalanced], ?_, ?_⟩
  · simp only [isKVLBalanced, decide_eq_true_eq]
    rw [abs_sub_lt_iff]; norm_num
  · simp only [isKVLBalanced, decide_eq_false_iff_not]
    rw [abs_sub_lt_iff]; norm_num

/-- C2: for every voltage `V` and nonzero resistance `R`,
`calculateOhmsLaw V R = V / R`; in particular `calculateOhmsLaw 10 5 = 2`,
displayed as `2.00 A`. -/
theorem calculateOhmsLaw_div (V R : ℚ) (h : R ≠ 0) :
    calculateOhmsLaw V R = V / R ∧ calculateOhmsLaw 10 5 = 2 ∧
    toFixed2 (calculateOhmsLaw 10 5) ++ " A" = "2.00 A" := by
  have h2 : calculateOhmsLaw 10 5 = 2 := by norm_num [calculateOhmsLaw]
  refine ⟨by rw [calculateOhmsLaw, if_neg h], h2, ?_⟩
  rw [h2, toFixed2_eval 2 false 200 (by rw [decide_eq_false_iff_not]; norm_num)
    (by norm_num [round_eq])]
  decide

/-- C2 witness: the law instantiated at voltage 10, resistance 5. -/
theorem calculateOhmsLaw_div_witness :
    calculateOhmsLaw 10 5 = (10 : ℚ) / 5 ∧ calculateOhmsLaw 10 5 = 2 ∧
    toFixed2 (calculateOhmsLaw 10 5) ++ " A" = "2.00 A" :=
  calculateOhmsLaw_div 10 5 (by norm_num)

/-- C3: for every voltage `V`, `calculateOhmsLaw V 0 = 0`: the
zero-resistance guard yields current 0 rather than an error or an
infinity. -/
theorem calculateOhmsLaw_zero_resistance (V : ℚ) :
    calculateOhmsLaw V 0 = 0 := by
  simp [calculateOhmsLaw]

/-- C4: `calculateKCL` returns the sum of its two arguments, the operation
is commutative, and `calculateKCL 3 4 = 7`. -/
theorem calculateKCL_sum_comm (i1 i2 : ℚ) :
    calculateKCL i1 i2 = i1 + i2 ∧ calculateKCL i1 i2 = calculateKCL i2 i1 ∧
    calculateKCL 3 4 = 7 := by
  refine ⟨rfl, ?_, by norm_num [calculateKCL]⟩
  simp [calculateKCL, add_comm]

/-- C5: whenever the KVL panel is not balanced, `validateKVL` writes a
validation string containing the absolute difference between the source
voltage and the drop sum formatted to two decimals; for source 12, drops
5 and 6 the sum shown is `11.00 V` and the difference shown is `1.00 V`. -/
theorem validateKVL_unbalanced (sourceVoltage v1 v2 : ℚ)
    (h : isKVLBalanced sourceVoltage (calculateKVL v1 v2) = false) :
    (validateKVL sourceVoltage v1 v2).validationText =
      "⚠ Difference: " ++ toFixed2 (|sourceVoltage - (v1 + v2)|) ++ " V" ∧
    (validateKVL 12 5 6).sumText = "11.00 V" ∧
    (validateKVL 12 5 6).validationText = "⚠ Difference: 1.00 V" := by
  have hsum : toFixed2 ((11 : ℚ)) = "11.00" := by
    rw [toFixed2_eval 11 false 1100 (by rw [decide_eq_false_iff_not]; norm_num)
      (by norm_num [round_eq])]
    decide
  have hdiff : toFixed2 ((1 : ℚ)) = "1.00" := by
    rw [toFixed2_eval 1 false 100 (by rw [decide_eq_false_iff_not]; norm_num)
      (by norm_num [round_eq])]
    decide
  have hbal : isKVLBalanced 12 (calculateKVL 5 6) = false := by
    simp only [isKVLBalanced, calculateKVL, decide_eq_false_iff_not]
    rw [abs_sub_lt_iff]; norm_num
  have habs : |(12 : ℚ) - calculateKVL 5 6| = 1 := by
    rw [calculateKVL]; norm_num
  have hsum11 : calculateKVL (5 : ℚ) 6 = 11 := by norm_num [calculateKVL]
  refine ⟨?_, ?_, ?_⟩
  · rw [validateKVL, if_neg (by simp [h])]
    rfl
  · rw [validateKVL, if_neg (by simp [hbal]), hsum11, hsum]
    rfl
  · rw [validateKVL, if_neg (by simp [hbal]), habs]
    show "⚠ Difference: " ++ toFixed2 1 ++ " V" = "⚠ Difference: 1.00 V"
    rw [hdiff]
    rfl

/-- C5 witness: the unbalanced display at source 12, drops 5 and 6. -/
theorem validateKVL_unbalanced_witness :
    (validateKVL 12 5 6).validationText =
      "⚠ Difference: " ++ toFixed2 (|(12 : ℚ) - (5 + 6)|) ++ " V" :=
  (validateKVL_unbalanced 12 5 6 (by
    simp only [isKVLBalanced, calculateKVL, decide_eq_false_iff_not]
    rw [abs_sub_lt_iff]; norm_num)).1

/-- C6: for every resistance `R`, including `R = 0`, a zero voltage gives
`calculateOhmsLaw 0 R = 0` on both branches. -/
theorem calculateOhmsLaw_zero_voltage (R : ℚ) :
    calculateOhmsLaw 0 R = 0 := by
  by_cases h : R = 0 <;> simp [calculateOhmsLaw, h]

lemma activate_spec (buttons sections : List Elem) (i : ℕ) (b : Elem)
    (t : String) (hi : i < buttons.length)
    (hm : (getElementById sections t).isSome = true) :
    countActive ((buttons.map clearActive).set i (setActive b)) = 1 ∧
    ((buttons.map clearActive).set i (setActive b)).get? i =
      some (setActive b) ∧
    countActive (setFirstById (sections.map clearActive) t) = 1 ∧
    ∀ s ∈ setFirstById (sections.map clearActive) t,
      s.active = true → s.id = t := by
  refine ⟨?_, ?_, ?_, ?_⟩
  · exact countActive_set (setActive b) rfl _ i mem_map_clearActive
      (by simpa using hi)
  · exact get?_set_self (setActive b) _ i (by simpa using hi)
  · apply countActive_setFirstById _ t mem_map_clearActive
    rcases Option.isSome_iff_exists.mp hm with ⟨s, hs⟩
    rw [getElementById_map_clearActive, hs]
    rfl
  · exact setFirstById_active_id _ t mem_map_clearActive

/-- C7: after an activation of a selector whose target exists, each of the
three guarded navigation groups (main nav of lab.js, data subsection nav,
element tabs) leaves exactly one selector and exactly one section active:
the clicked selector and its target, all siblings cleared. -/
theorem nav_exactly_one_active (buttons sections : List Elem) (i : ℕ)
    (b : Elem) (t : String) (hb : buttons.get? i = some b)
    (ht : b.attr = some t) :
    ((getElementById sections t).isSome = true →
      ∃ bs ss, clickNav buttons sections i = Except.ok (bs, ss) ∧
        countActive bs = 1 ∧ bs.get? i = some (setActive b) ∧
        countActive ss = 1 ∧ ∀ s ∈ ss, s.active = true → s.id = t) ∧
    ((getElementById sections (t ++ "-subsection")).isSome = true →
      ∃ bs ss, clickDataNav buttons sections i = Except.ok (bs, ss) ∧
        countActive bs = 1 ∧ bs.get? i = some (setActive b) ∧
        countActive ss = 1 ∧
        ∀ s ∈ ss, s.active = true → s.id = t ++ "-subsection") ∧
    ((getElementById sections (t ++ "-panel")).isSome = true →
      ∃ bs ss, clickElementTabs buttons sections i = Except.ok (bs, ss) ∧
        countActive bs = 1 ∧ bs.get? i = some (setActive b) ∧
        countActive ss = 1 ∧
        ∀ s ∈ ss, s.active = true → s.id = t ++ "-panel") := by
  have hi : i < buttons.length := by
    rcases List.get?_eq_some.mp hb with ⟨h, _⟩
    exact h
  have hb2 : buttons[i]? = some b := by
    rw [← List.get?_eq_getElem?]
    exact hb
  refine ⟨?_, ?_, ?_⟩
  · intro hfind
    rcases Option.isSome_iff_exists.mp hfind with ⟨s, hs⟩
    obtain ⟨h1, h2, h3, h4⟩ := activate_spec buttons sections i b t hi hfind
    exact ⟨_, _, by simp [clickNav, hb2, ht, hs], h1, h2, h3, h4⟩
  · intro hfind
    rcases Option.isSome_iff_exists.mp hfind with ⟨s, hs⟩
    have hclear : getElementById (sections.map clearActive)
        (t ++ "-subsection") = some (clearActive s) := by
      rw [getElementById_map_clearActive, hs]
      rfl
    obtain ⟨h1, h2, h3, h4⟩ :=
      activate_spec buttons sections i b (t ++ "-subsection") hi hfind
    exact ⟨_, _, by simp [clickDataNav, hb2, ht, hclear], h1, h2, h3, h4⟩
  · intro hfind
    rcases Option.isSome_iff_exists.mp hfind with ⟨s, hs⟩
    obtain ⟨h1, h2, h3, h4⟩ :=
      activate_spec buttons sections i b (t ++ "-panel") hi hfind
    exact ⟨_, _, by simp [clickElementTabs, hb2, ht, hs], h1, h2, h3, h4⟩

/-- C7 witness: clicking the first button of a two-button group whose
target section exists leaves exactly that button and that section
active. -/
theorem nav_exactly_one_active_witness :
    ∃ bs ss,
      clickNav [Elem.mk "b0" (some "sec0") false, Elem.mk "b1" none true]
        [Elem.mk "other" none true, Elem.mk "sec0" none false] 0 =
        Except.ok (bs, ss) ∧
      countActive bs = 1 ∧
      bs.get? 0 = some (setActive (Elem.mk "b0" (some "sec0") false)) ∧
      countActive ss = 1 ∧ ∀ s ∈ ss, s.active = true → s.id = "sec0" :=
  (nav_exactly_one_active
    [Elem.mk "b0" (some "sec0") false, Elem.mk "b1" none true]
    [Elem.mk "other" none true, Elem.mk "sec0" none false] 0
    (Elem.mk "b0" (some "sec0") false) "sec0" rfl rfl).1 rfl

/-- C8 counterexample: the claim fails on the code in each of its three
clauses, every failure shown at a concrete input: the main-navigation
handler of src/unnamed/part_000 throws on a missing target section; the
element-tabs handler of part_000 returns early with no console call on a
missing panel; the Ohm calculator initialiser of part_000 returns early
with no console call on a missing slider; the element-tabs presence check
of src/lab.js returns early with no console call; and the
data-subsection handler of part_000 does not return early on a missing
target: it mutates the subsection list (the initially active subsection
loses its mark) while logging nothing. -/
theorem missing_element_handling_counterexample :
    isOk (clickMainNav [Elem.mk "home-link" (some "missing-section") false]
      [Elem.mk "home" none true] 0) = false ∧
    clickElementTabsPartC [Elem.mk "tab0" (some "res") false] [] 0 =
      Except.ok (([Elem.mk "tab0" (some "res") false], ([] : List Elem)),
        false) ∧
    initOhmsLawPart [none, some (Elem.mk "resistance" none false)] =
      (false, false) ∧
    initElementTabsLab [] [] = (false, false) ∧
    clickDataNavC [Elem.mk "b0" (some "x") true] [Elem.mk "y" none true] 0 =
      Except.ok (([Elem.mk "b0" (some "x") true],
        [Elem.mk "y" none false]), false) ∧
    [Elem.mk "y" none false] ≠ [Elem.mk "y" none true] :=
  ⟨rfl, rfl, rfl, rfl, rfl, by decide⟩

/-- C8 amended: a missing expected DOM element never results in an
exception thrown to the caller, except in the main-navigation click
handler of src/unnamed/part_000, which dereferences its target section
unguarded and throws when the target is missing. The remaining operations
never throw, but the handling is uneven: the operations of src/lab.js
handle a missing element by an early return accompanied by a console
warning or error, except the element-tabs presence check, which returns
early silently; the calculator initialisers and the element-tabs click
handler of part_000 return early silently; and the data-subsection click
handler of part_000 does not return early on a missing target: it has
already cleared every active mark and highlighted the clicked button, and
only the target activation is skipped, with nothing logged. -/
theorem missing_element_handling_amended :
    (∀ buttons sections i, isOk (clickNavC buttons sections i) = true) ∧
    (∀ buttons sections i, isOk (clickDataNavC buttons sections i) = true) ∧
    (∀ tabs panels i, isOk (clickElementTabsLabC tabs panels i) = true) ∧
    (∀ tabs panels i, isOk (clickElementTabsPartC tabs panels i) = true) ∧
    (∀ links sections i l t, links.get? i = some l → l.attr = some t →
      getElementById sections t = none →
      isOk (clickMainNav links sections i) = false) ∧
    (∀ navButtons contentSections : List Elem,
      navButtons = [] ∨ contentSections = [] →
      initNavigationLab navButtons contentSections = (false, true)) ∧
    (∀ buttons sections i b, buttons.get? i = some b →
      (b.attr = none →
        clickNavC buttons sections i =
          Except.ok ((buttons, sections), true)) ∧
      (∀ t, b.attr = some t → getElementById sections t = none →
        clickNavC buttons sections i =
          Except.ok ((buttons, sections), true))) ∧
    (∀ required : List (Option Elem), required.any Option.isNone = true →
      initOhmsLawLab required = (false, true) ∧
      initKCLLab required = (false, true) ∧
      initKVLLab required = (false, true)) ∧
    (∀ tabs panels i tb, tabs.get? i = some tb →
      (tb.attr = none →
        clickElementTabsLabC tabs panels i =
          Except.ok ((tabs, panels), true)) ∧
      (∀ t, tb.attr = some t →
        getElementById panels (t ++ "-panel") = none →
        clickElementTabsLabC tabs panels i =
          Except.ok ((tabs, panels), true))) ∧
    (∀ tabs panels : List Elem, tabs = [] ∨ panels = [] →
      initElementTabsLab tabs panels = (false, false)) ∧
    (∀ required : List (Option Elem), required.any Option.isNone = true →
      initOhmsLawPart required = (false, false) ∧
      initKCLPart required = (false, false) ∧
      initKVLPart required = (false, false)) ∧
    (∀ tabs panels i tb, tabs.get? i = some tb →
      (tb.attr = none →
        clickElementTabsPartC tabs panels i =
          Except.ok ((tabs, panels), false)) ∧
      (∀ t, tb.attr = some t →
        getElementById panels (t ++ "-panel") = none →
        clickElementTabsPartC tabs panels i =
          Except.ok ((tabs, panels), false))) ∧
    (∀ buttons sections i b t, buttons.get? i = some b → b.attr = some t →
      getElementById sections (t ++ "-subsection") = none →
      clickDataNavC buttons sections i =
        Except.ok (((buttons.map clearActive).set i (setActive b),
          sections.map clearActive), false)) := by
  refine ⟨?_, ?_, ?_, ?_, ?_, ?_, ?_, ?_, ?_, ?_, ?_, ?_, ?_⟩
  · intro buttons sections i
    unfold clickNavC
    split
    · rfl
    · split
      · rfl
      · split
        · rfl
        · rfl
  · intro buttons sections i
    unfold clickDataNavC
    split
    · rfl
    · split
      · dsimp only
        split <;> rfl
      · dsimp only
        split <;> rfl
  · intro tabs panels i
    unfold clickElementTabsLabC
    split
    · rfl
    · split
      · rfl
      · split
        · rfl
        · rfl
  · intro tabs panels i
    unfold clickElementTabsPartC
    split
    · rfl
    · split
      · rfl
      · split
        · rfl
        · rfl
  · intro links sections i l t hl hlt hmiss
    have hl2 : links[i]? = some l := by
      rw [← List.get?_eq_getElem?]
      exact hl
    have hclear : getElementById (sections.map clearActive) t = none := by
      rw [getElementById_map_clearActive, hmiss]
      rfl
    simp [clickMainNav, hl2, hlt, hclear, isOk]
  · intro nb cs h
    unfold initNavigationLab
    rcases h with rfl | rfl
    · simp
    · by_cases hnb : nb.length = 0 <;> simp [hnb]
  · intro buttons sections i b hb
    have hb2 : buttons[i]? = some b := by
      rw [← List.get?_eq_getElem?]
      exact hb
    constructor
    · intro hattr
      simp [clickNavC, hb2, hattr]
    · intro t hattr hmiss
      simp [clickNavC, hb2, hattr, hmiss]
  · intro required h
    refine ⟨?_, ?_, ?_⟩
    · simp [initOhmsLawLab, h]
    · simp [initKCLLab, h]
    · simp [initKVLLab, h]
  · intro tabs panels i tb htb
    have htb2 : tabs[i]? = some tb := by
      rw [← List.get?_eq_getElem?]
      exact htb
    constructor
    · intro hattr
      simp [clickElementTabsLabC, htb2, hattr]
    · intro t hattr hmiss
      simp [clickElementTabsLabC, htb2, hattr, hmiss]
  · intro tabs panels h
    unfold initElementTabsLab
    rcases h with rfl | rfl
    · simp
    · simp
  · intro required h
    refine ⟨?_, ?_, ?_⟩
    · simp [initOhmsLawPart, h]
    · simp [initKCLPart, h]
    · simp [initKVLPart, h]
  · intro tabs panels i tb htb
    have htb2 : tabs[i]? = some tb := by
      rw [← List.get?_eq_getElem?]
      exact htb
    constructor
    · intro hattr
      simp [clickElementTabsPartC, htb2, hattr]
    · intro t hattr hmiss
      simp [clickElementTabsPartC, htb2, hattr, hmiss]
  · intro buttons sections i b t hb ht hmiss
    have hb2 : buttons[i]? = some b := by
      rw [← List.get?_eq_getElem?]
      exact hb
    have hclear : getElementById (sections.map clearActive)
        (t ++ "-subsection") = none := by
      rw [getElementById_map_clearActive, hmiss]
      rfl
    simp [clickDataNavC, hb2, ht, hclear]

/-- C9: in the data-subsection handler of src/unnamed/part_000, a click
whose target subsection is missing still clears every button and
subsection and marks only the clicked button, leaving zero subsections
active; the handler of src/lab.js checks the target before clearing, so
the same situation leaves the whole state unchanged. -/
theorem dataNav_missing_target_drops_selection (buttons sections : List Elem)
    (i : ℕ) (b : Elem) (t : String) (hb : buttons.get? i = some b)
    (ht : b.attr = some t) :
    ((getElementById sections (t ++ "-subsection")).isSome = false →
      clickDataNav buttons sections i =
        Except.ok ((buttons.map clearActive).set i (setActive b),
          sections.map clearActive) ∧
      countActive (sections.map clearActive) = 0 ∧
      countActive ((buttons.map clearActive).set i (setActive b)) = 1) ∧
    ((getElementById sections t).isSome = false →
      clickNav buttons sections i = Except.ok (buttons, sections)) := by
  have hi : i < buttons.length := by
    rcases List.get?_eq_some.mp hb with ⟨h, _⟩
    exact h
  have hb2 : buttons[i]? = some b := by
    rw [← List.get?_eq_getElem?]
    exact hb
  constructor
  · intro hmiss
    cases hgo : getElementById sections (t ++ "-subsection") with
    | some s => rw [hgo] at hmiss; simp at hmiss
    | none =>
      have hclear : getElementById (sections.map clearActive)
          (t ++ "-subsection") = none := by
        rw [getElementById_map_clearActive, hgo]
        rfl
      refine ⟨by simp [clickDataNav, hb2, ht, hclear],
        countActive_eq_zero mem_map_clearActive,
        countActive_set (setActive b) rfl _ i mem_map_clearActive
          (by simpa using hi)⟩
  · intro hmiss
    cases hgo : getElementById sections t with
    | some s => rw [hgo] at hmiss; simp at hmiss
    | none => simp [clickNav, hb2, ht, hgo]

/-- C9 witness: one button targeting an absent subsection id over one
initially active subsection: the button group ends with the clicked
button active and the subsection group ends with nothing active. -/
theorem dataNav_missing_target_drops_selection_witness :
    clickDataNav [Elem.mk "b0" (some "x") true] [Elem.mk "y" none true] 0 =
      Except.ok
        (([Elem.mk "b0" (some "x") true].map clearActive).set 0
          (setActive (Elem.mk "b0" (some "x") true)),
        [Elem.mk "y" none true].map clearActive) ∧
    countActive ([Elem.mk "y" none true].map clearActive) = 0 ∧
    countActive (([Elem.mk "b0" (some "x") true].map clearActive).set 0
      (setActive (Elem.mk "b0" (some "x") true))) = 1 :=
  (dataNav_missing_target_drops_selection [Elem.mk "b0" (some "x") true]
    [Elem.mk "y" none true] 0
    (Elem.mk "b0" (some "x") true) "x" rfl rfl).1 rfl

/-- C10: `calculateOhmsLaw` is total and never divides by zero: the
fallible embedding `calculateOhmsLawE`, whose division reports an error on
a zero divisor, always returns `Except.ok` and agrees with
`calculateOhmsLaw`. -/
theorem calculateOhmsLaw_never_divides_by_zero (V R : ℚ) :
    calculateOhmsLawE V R = Except.ok (calculateOhmsLaw V R) ∧
    isOk (calculateOhmsLawE V R) = true := by
  by_cases h : R = 0 <;>
    simp [calculateOhmsLawE, safeDiv, calculateOhmsLaw, h, isOk]

end Electric
